import Mathlib

/-!
Shallow embedding of the ROE_Analyzer financial-data extraction engine.

Sources embedded here:
* `src/src/roeExtractor.js` — tag resolver (`extractFinancialData`), period
  selector (`getMostRecentFiling`), ROE calculator (`calculateROE`).
* `src/src/BatchROEProcessor.js` — batch orchestrator (`processBatch`,
  `processBatchROE`) and `calculateSummaryStatistics`.
* `src/frontend/src/lib/sec-api/rateLimiter.js` — `handleError` backoff.

Modelling conventions:
* JavaScript numbers holding monetary fact values are modelled as `Int`
  (SEC XBRL monetary facts are integral); the derived ROE ratio is `ℚ`.
* Date strings (`start`, `end`, `filed`) are kept as the strings the API
  delivers where the source treats them as strings (`includes` checks);
  the `filed` field is only ever compared via `new Date(...)` subtraction,
  so it is modelled as a `Nat` in a date-monotone encoding.
* JavaScript truthiness: a missing field is `Option.none`; `0` is falsy
  for numbers (`jsTruthyNat`).  A missing string is falsy, and the empty
  string cannot contain any of the non-empty patterns searched for, so
  `optIncludes` covers both the truthiness guard and the `includes` call.
* `Array.prototype.sort` is stable (ES2019); it is modelled by the stable
  structural `List.insertionSort` with the comparator translated to the
  relation "may come first" (`comparator(a,b) ≤ 0`).
* Thrown `Error`s are modelled by `Except` with a structured error type
  whose constructors carry exactly the data interpolated into the
  source message strings.
-/

/-- Prefix test on character lists (`listPrefixEq pat l` iff `pat` is a
prefix of `l`); building block for the JS `String.prototype.includes`. -/
def listPrefixEq : List Char → List Char → Bool
  | [], _ => true
  | _ :: _, [] => false
  | a :: as, b :: bs => a == b && listPrefixEq as bs

/-- Substring containment on character lists. -/
def listContainsSub (pat : List Char) : List Char → Bool
  | [] => listPrefixEq pat []
  | c :: rest => listPrefixEq pat (c :: rest) || listContainsSub pat rest

/-- JS `s.includes(pat)`. -/
def strIncludes (s pat : String) : Bool :=
  listContainsSub pat.toList s.toList

/-- Truthiness guard plus `includes` for a nullable string field, e.g.
`item.start && item.start.includes(pat)` (all patterns used are
non-empty, so the empty string correctly tests false). -/
def optIncludes (o : Option String) (pat : String) : Bool :=
  match o with
  | none => false
  | some s => strIncludes s pat

/-- JS truthiness of a nullable number field (`item.fy`): absent and `0`
are falsy. -/
def jsTruthyNat (n : Option Nat) : Bool :=
  match n with
  | none => false
  | some v => v != 0

/-- JS `s.padStart(n, c)`. -/
def jsPadStart (s : String) (n : Nat) (c : Char) : String :=
  if n ≤ s.length then s else ⟨List.replicate (n - s.length) c ++ s.toList⟩

/-- JS `s.replace` with the global hyphen regex — strip every hyphen. -/
def stripHyphens (s : String) : String :=
  ⟨s.toList.filter (fun c => c ≠ '-')⟩

/-- JS `s.toUpperCase()` (ASCII suffices for tickers). -/
def jsToUpper (s : String) : String :=
  ⟨s.toList.map Char.toUpper⟩

/-- JS `parseInt` restricted to the date-prefix strings it is applied to
in `roeExtractor.js` line 135: parse the leading decimal digits; no
leading digit means `NaN`, modelled as `none`.  (Sign/whitespace/radix
forms do not reach this call site; a `NaN` or non-positive result is
discarded by the `year > 0` filter at line 136.) -/
def jsParseIntLeading (s : String) : Option Nat :=
  let ds := s.toList.takeWhile Char.isDigit
  if ds.isEmpty then none
  else some (ds.foldl (fun n c => n * 10 + (c.toNat - '0'.toNat)) 0)

/-- ES `Number.prototype.toFixed(2)`: the integer `n` with `n / 100`
closest to the argument, ties resolved to the larger `n` (hence
`⌊x·100 + 1/2⌋`), rendered with exactly two fraction digits.  The model
rounds the exact rational; the source rounds the binary double, which
can differ on decimal ties, none of which arise in the claims. -/
def jsToFixed2 (x : ℚ) : String :=
  let n : Int := ⌊x * 100 + 1 / 2⌋
  let m : Nat := n.natAbs
  let digits :=
    toString (m / 100) ++ "." ++
      (if m % 100 < 10 then "0" ++ toString (m % 100) else toString (m % 100))
  if n < 0 then "-" ++ digits else digits

/-- One tagged observation from a `units.USD` array of the company-facts
document (spec §3 "Tagged Observation").  The source field `end` is a
reserved word in Lean and is named `endD`; `filed` is the filing-date
string under a date-monotone numeric encoding (it is only ever compared
through `new Date(...)` subtraction). -/
structure Observation where
  val : Int
  start : Option String
  endD : Option String
  fy : Option Nat
  fp : Option String
  accn : String
  filed : Nat
deriving DecidableEq, Repr

/-- Result of the tag resolver: the fully qualified tag plus its USD
series (`roeExtractor.js` lines 35–38). -/
structure TagSeries where
  tag : String
  data : List Observation
deriving DecidableEq, Repr

/-- Structured rendering of the `Error`s thrown by `roeExtractor.js`;
each constructor carries exactly the data interpolated into the
corresponding message:
* `notFound label tagSequence` ↦ ``No ${label} data found using tag
  sequence: ...`` with the comma-joined tag sequence (line 41);
* `periodNotFound fiscalPeriod` ↦ ``No data found for fiscal period:
  ${fiscalPeriod}`` (line 79);
* `invalidEquity val` ↦ ``Invalid equity value: ${val}`` (line 156). -/
inductive ROEError where
  | notFound (label : String) (tagSequence : List String)
  | periodNotFound (fiscalPeriod : String)
  | invalidEquity (val : Int)
deriving DecidableEq, Repr

/-- Tag resolver, `roeExtractor.js` lines 31–42.  The facts document is
modelled as a map from bare tag name to its `units.USD` array; `none`
collapses every falsy level of the guard chain in the source
(namely facts[us-gaap], then [tag], then [units], then [USD])
(an absent `us-gaap` namespace is the document that is `none` at every
tag).  Note a present-but-empty `USD` array is truthy in JS and is
therefore selected. -/
def extractFinancialData (facts : String → Option (List Observation))
    (tagSequence : List String) (label : String) : Except ROEError TagSeries :=
  match tagSequence.find? (fun tag => (facts tag).isSome) with
  | some tag => .ok { tag := "us-gaap:" ++ tag, data := (facts tag).getD [] }
  | none => .error (.notFound label tagSequence)

/-- The list `this.netIncomeTagSequence`, `roeExtractor.js` lines 10–15. -/
def netIncomeTagSequence : List String :=
  ["NetIncomeLoss",
   "IncomeLossFromContinuingOperations",
   "NetIncomeLossAvailableToCommonStockholdersBasic",
   "ProfitLoss"]

/-- The list `this.equityTagSequence`, `roeExtractor.js` lines 17–20. -/
def equityTagSequence : List String :=
  ["StockholdersEquity",
   "StockholdersEquityIncludingPortionAttributableToNoncontrollingInterest"]

/-- Tier-1 candidate set (`roeExtractor.js` lines 48–52): entries whose
coverage spans the full target year. -/
def fullYearEntries (dataArray : List Observation) (y : Nat) : List Observation :=
  dataArray.filter fun o =>
    optIncludes o.start (toString y ++ "-01-01") &&
      optIncludes o.endD (toString y ++ "-12-31")

/-- Tier-2 candidate set (`roeExtractor.js` lines 60–62): entries ending
on the target year-end, regardless of start. -/
def yearEndEntries (dataArray : List Observation) (y : Nat) : List Observation :=
  dataArray.filter fun o => optIncludes o.endD (toString y ++ "-12-31")

/-- Tier-3 primary filter (`roeExtractor.js` line 70): truthy fiscal
year and exact fiscal-period match. -/
def periodFiltered (dataArray : List Observation) (fiscalPeriod : String) : List Observation :=
  dataArray.filter fun o => jsTruthyNat o.fy && (o.fp == some fiscalPeriod)

/-- Tier-3 annual fallback (`roeExtractor.js` lines 72–76): entries
ending on any December 31. -/
def decemberEndEntries (dataArray : List Observation) : List Observation :=
  dataArray.filter fun o => optIncludes o.endD "-12-31"

/-- The survivor set the tier-3 sort runs over (`roeExtractor.js`
lines 70–76). -/
def tier3Survivors (dataArray : List Observation) (fiscalPeriod : String) : List Observation :=
  if (periodFiltered dataArray fiscalPeriod).isEmpty && (fiscalPeriod == "FY") then
    decemberEndEntries dataArray
  else periodFiltered dataArray fiscalPeriod

/-- The tier-1/2 sort order: the comparator
`(a, b) => new Date(b.filed) - new Date(a.filed)` (lines 56, 65) says
`a` may precede `b` iff `b.filed ≤ a.filed` (filed-date descending). -/
def filedDescOrder (a b : Observation) : Prop :=
  b.filed ≤ a.filed

instance : DecidableRel filedDescOrder :=
  fun a b => Nat.decLe b.filed a.filed

instance : IsTotal Observation filedDescOrder :=
  ⟨fun a b => Nat.le_total b.filed a.filed⟩

instance : IsTrans Observation filedDescOrder :=
  ⟨fun _ _ _ h1 h2 => le_trans h2 h1⟩

/-- The raw fiscal-year number of the source, with JS coercion of a missing
field to `0` (only used under truthiness guards). -/
def fyv (o : Observation) : Nat :=
  o.fy.getD 0

/-- The tier-3 comparator (`roeExtractor.js` lines 82–87) as a Boolean
"may precede" test: when both entries have truthy fiscal years that
differ, compare fiscal years descending; otherwise compare filed dates
descending. -/
def tier3BeforeB (a b : Observation) : Bool :=
  if jsTruthyNat a.fy && jsTruthyNat b.fy && (fyv b != fyv a) then
    decide (fyv b ≤ fyv a)
  else decide (b.filed ≤ a.filed)

/-- The comparator `tier3BeforeB` as a relation for the stable sort. -/
def tier3Before (a b : Observation) : Prop :=
  tier3BeforeB a b = true

instance : DecidableRel tier3Before :=
  fun a b => instDecidableEqBool (tier3BeforeB a b) true

/-- The descending lexicographic (fiscal year, filed date) order the
tier-3 comparator implements on entries whose fiscal years are both
truthy. -/
def lexBefore (a b : Observation) : Prop :=
  fyv b < fyv a ∨ (fyv b = fyv a ∧ b.filed ≤ a.filed)

instance : DecidableRel lexBefore :=
  fun _ _ => instDecidableOr

instance : IsTotal Observation lexBefore :=
  ⟨fun a b => by
    rcases lt_trichotomy (fyv a) (fyv b) with h | h | h
    · exact Or.inr (Or.inl h)
    · rcases Nat.le_total b.filed a.filed with hf | hf
      · exact Or.inl (Or.inr ⟨h.symm, hf⟩)
      · exact Or.inr (Or.inr ⟨h, hf⟩)
    · exact Or.inl (Or.inl h)⟩

instance : IsTrans Observation lexBefore :=
  ⟨fun a b c hab hbc => by
    rcases hab with h1 | ⟨h1, h1'⟩ <;> rcases hbc with h2 | ⟨h2, h2'⟩
    · exact Or.inl (lt_trans h2 h1)
    · exact Or.inl (lt_of_le_of_lt (le_of_eq h2) h1)
    · exact Or.inl (lt_of_lt_of_le h2 (le_of_eq h1))
    · exact Or.inr ⟨h2.trans h1, h2'.trans h1'⟩⟩

/-- Tiers 1 and 2 of the period selector (`roeExtractor.js` lines
46–67): engaged only when fiscalPeriod is FY with a truthy target
year; each tier returns the latest-filed entry of its candidate set if
non-empty.  The source tests `.length > 0` before sorting and indexing
`[0]`; sorting preserves emptiness, so matching on the sorted list is
the same control flow. -/
def tierPick (dataArray : List Observation) (fiscalPeriod : String)
    (targetYear : Option Nat) : Option Observation :=
  if fiscalPeriod == "FY" && jsTruthyNat targetYear then
    match List.insertionSort filedDescOrder
        (fullYearEntries dataArray (targetYear.getD 0)) with
    | r :: _ => some r
    | [] =>
      match List.insertionSort filedDescOrder
          (yearEndEntries dataArray (targetYear.getD 0)) with
      | r :: _ => some r
      | [] => none
  else none

/-- Period selector, `roeExtractor.js` lines 45–90 (source defaults:
fiscalPeriod FY, targetYear null).  Tier 1/2 via `tierPick`;
otherwise the tier-3 survivors are sorted by the line-82 comparator and
the first is returned, and an empty survivor set throws
`No data found for fiscal period: ${fiscalPeriod}`. -/
def getMostRecentFiling (dataArray : List Observation) (fiscalPeriod : String)
    (targetYear : Option Nat) : Except ROEError Observation :=
  match tierPick dataArray fiscalPeriod targetYear with
  | some r => .ok r
  | none =>
    match List.insertionSort tier3Before (tier3Survivors dataArray fiscalPeriod) with
    | r :: _ => .ok r
    | [] => .error (.periodNotFound fiscalPeriod)

/-- Lines 124–128 of `roeExtractor.js`: is a full-calendar-2024 flow
observation present? -/
def available2024 (data : List Observation) : Bool :=
  data.any fun o =>
    optIncludes o.start "2024-01-01" && optIncludes o.endD "2024-12-31"

/-- Lines 132–136 of `roeExtractor.js`: the candidate years for the
fallback — full-year flow entries, year parsed from the start date
(parseInt of the start-date text before the first
hyphen), `NaN` and non-positive years discarded. -/
def availableYears (data : List Observation) : List Nat :=
  (((data.filter fun o =>
        optIncludes o.start "-01-01" && optIncludes o.endD "-12-31").filterMap
      fun o => o.start.bind fun s =>
        jsParseIntLeading ⟨s.toList.takeWhile (fun c => c ≠ '-')⟩).filter
    fun y => 0 < y)

/-- Year-targeting policy of the calculator, `roeExtractor.js` lines
119–143: for `FY`, anchor on the hardcoded year 2024; if no full-2024
flow observation exists, use the maximum available full-flow year; if
there is none either, the target stays 2024.  Non-annual periods get no
target year (`null`). -/
def determineTargetYear (fiscalPeriod : String) (netIncomeData : List Observation) :
    Option Nat :=
  if fiscalPeriod == "FY" then
    if available2024 netIncomeData then some 2024
    else
      match (availableYears netIncomeData).max? with
      | some y => some y
      | none => some 2024
  else none

/-- The result record assembled at `roeExtractor.js` lines 169–196.
Omitted from the model: `extraction_timestamp` (wall clock), and the
`roe_calculation.formula` string (built with the locale-dependent
`toLocaleString`); `roe_value`/`roe_percentage` are the other two
members of `roe_calculation`.  `fiscal_year` is
`parseInt(recentNetIncome.fy)`, which is the number itself or `NaN`
(= `none`) when `fy` is absent. -/
structure ROEResult where
  ticker : String
  cik : String
  company_name : String
  sic_code : Option String
  fiscal_year : Option Nat
  fiscal_period : String
  filing_date : Nat
  accession_number : String
  filing_url : String
  net_income_value : Int
  net_income_tag : String
  stockholders_equity_value : Int
  stockholders_equity_tag : String
  roe_value : ℚ
  roe_percentage : String
  data_quality_flags : List String

/-- ROE calculator, `roeExtractor.js` lines 93–203, with the two
upstream fetches replaced by their delivered values (`facts` is the
`companyFacts.facts` map, `entityName` and `sic` the used fields of the
two responses).  Console logging is omitted.  The line 200–202 catch
re-throws with the message prefixed by ticker and CIK; the model
returns the structured error unchanged.  The local bindings of the source
(`targetYear`, `netIncomeValue`, `equityValue`, `roeDecimal`) are
inlined at their use sites. -/
def calculateROE (ticker cik : String) (facts : String → Option (List Observation))
    (entityName : String) (sic : Option Nat) (fiscalPeriod : String) :
    Except ROEError ROEResult :=
  match extractFinancialData facts netIncomeTagSequence "Net Income" with
  | .error e => .error e
  | .ok netIncomeData =>
    match extractFinancialData facts equityTagSequence "Stockholders Equity" with
    | .error e => .error e
    | .ok equityData =>
      match getMostRecentFiling netIncomeData.data fiscalPeriod
          (determineTargetYear fiscalPeriod netIncomeData.data) with
      | .error e => .error e
      | .ok recentNetIncome =>
        match getMostRecentFiling equityData.data fiscalPeriod
            (determineTargetYear fiscalPeriod netIncomeData.data) with
        | .error e => .error e
        | .ok recentEquity =>
          if recentEquity.val ≤ 0 then .error (.invalidEquity recentEquity.val)
          else
            .ok {
              ticker := jsToUpper ticker
              cik := jsPadStart cik 10 '0'
              company_name := entityName
              sic_code := sic.map (fun n => toString n)
              fiscal_year := recentNetIncome.fy
              fiscal_period := fiscalPeriod
              filing_date := recentNetIncome.filed
              accession_number := recentNetIncome.accn
              filing_url := "https://www.sec.gov/Archives/edgar/data/" ++ cik ++ "/"
                ++ stripHyphens recentNetIncome.accn
              net_income_value := recentNetIncome.val
              net_income_tag := netIncomeData.tag
              stockholders_equity_value := recentEquity.val
              stockholders_equity_tag := equityData.tag
              roe_value := (recentNetIncome.val : ℚ) / (recentEquity.val : ℚ)
              roe_percentage :=
                jsToFixed2 ((recentNetIncome.val : ℚ) / (recentEquity.val : ℚ) * 100) ++ "%"
              data_quality_flags := [] }

/-- Lines 68–84 of `rateLimiter.js` (`handleError`): a negative attempt
throws before any wait; otherwise the call sleeps
`min(2^attempt · 1000, 30000)` milliseconds, returned here as the
`ok` payload (the error path performs no wait). -/
def handleError (attempt : Int) : Except String Nat :=
  if attempt < 0 then .error "Attempt number must be non-negative"
  else .ok (min (2 ^ attempt.toNat * 1000) 30000)

/-- One entry of the master utility list as consumed by
the batch processor (the classification fields it
merely copies into `utility_info` are omitted). -/
structure UtilityCompany where
  ticker : String
  cik : String
  company_name : String
deriving DecidableEq, Repr

/-- A failure record, `BatchROEProcessor.js` lines 101–111 (the wall
clock fields `processing_time_ms` and `timestamp` are impure and
omitted; the structured error stands for `error_message`). -/
structure FailureRecord where
  ticker : String
  cik : String
  company_name : String
  error : ROEError

/-- The accumulated `this.results` of the batch orchestrator
(`BatchROEProcessor.js` lines 22–35, success and failure lists). -/
structure BatchResults where
  successful : List ROEResult
  failed : List FailureRecord

/-- The function `BatchROEProcessor.processUtilityROE`, lines 60–113: a
per-company calculation with any thrown error caught and converted into a failure
record.  The per-company calculation is abstracted to `calc` (in the
source it is calculateROE applied to the ticker, cik and FY); the
decoration of a success with `utility_info`/timing is presentational
and omitted. -/
def processUtilityROE (calcOne : UtilityCompany → Except ROEError ROEResult)
    (u : UtilityCompany) : Except FailureRecord ROEResult :=
  match calcOne u with
  | .ok r => .ok r
  | .error e => .error { ticker := u.ticker, cik := u.cik,
                         company_name := u.company_name, error := e }

/-- The method `BatchROEProcessor.processBatch`, lines 118–148: sequentially
process a batch, appending each outcome to the accumulated results
(the source pushes into both the per-batch and the global `this.results`
accumulators; the global one is the state threaded here).  The
rate-limiter wait and logging are I/O and omitted. -/
def processBatch (calcOne : UtilityCompany → Except ROEError ROEResult)
    (acc : BatchResults) (batch : List UtilityCompany) : BatchResults :=
  batch.foldl
    (fun acc u =>
      match processUtilityROE calcOne u with
      | .ok r => { acc with successful := acc.successful ++ [r] }
      | .error f => { acc with failed := acc.failed ++ [f] })
    acc

/-- The `utilities.slice(i, i + this.batchSize)` partition of
`processBatchROE` (lines 309–315) with the batchSize 10 of the source. -/
def toBatches : List UtilityCompany → List (List UtilityCompany)
  | [] => []
  | u :: rest => ((u :: rest).take 10) :: toBatches ((u :: rest).drop 10)
termination_by l => l.length
decreasing_by simp [List.length_drop]; omega

/-- The driver `BatchROEProcessor.processBatchROE`, lines 293–336: process every
batch in order, accumulating into initially empty results.  The
inter-batch pause, file output and display are I/O and omitted. -/
def processBatchROE (calcOne : UtilityCompany → Except ROEError ROEResult)
    (utilities : List UtilityCompany) : BatchResults :=
  (toBatches utilities).foldl (processBatch calcOne) { successful := [], failed := [] }

/-- The statistics record of `calculateSummaryStatistics`
(`BatchROEProcessor.js` lines 153–190).  The source stores
`std_deviation = Math.sqrt(variance)`; the square root of a rational is
irrational in general, so the model carries the population `variance`
(the remaining fields are identical); the standard deviation is zero,
positive or undefined exactly as the variance is. -/
structure SummaryStatistics where
  count : Nat
  average_roe : ℚ
  median_roe : ℚ
  min_roe : ℚ
  max_roe : ℚ
  variance : ℚ
deriving DecidableEq, Repr

/-- The non-empty branch of `calculateSummaryStatistics` (lines
167–189) as a function of the extracted ROE values: mean, median on the
ascending stable sort, min/max, population variance.  Indexing of the
sorted array is total in the source (indices are in range when the list
is non-empty); `getD … 0` mirrors that. -/
def summaryOfValues (roeValues : List ℚ) : SummaryStatistics :=
  let sum : ℚ := roeValues.foldl (· + ·) 0
  let average : ℚ := sum / (roeValues.length : ℚ)
  let sortedValues := List.insertionSort (fun x y : ℚ => x ≤ y) roeValues
  let median : ℚ :=
    if roeValues.length % 2 == 0 then
      (sortedValues.getD (roeValues.length / 2 - 1) 0 +
        sortedValues.getD (roeValues.length / 2) 0) / 2
    else sortedValues.getD (roeValues.length / 2) 0
  let variance : ℚ :=
    (roeValues.foldl (fun acc v => acc + (v - average) ^ 2) 0) / (roeValues.length : ℚ)
  { count := roeValues.length
    average_roe := average
    median_roe := median
    min_roe := (roeValues.min?).getD 0
    max_roe := (roeValues.max?).getD 0
    variance := variance }

/-- The method `BatchROEProcessor.calculateSummaryStatistics`, lines 153–190: an
empty success list yields the all-zero record (lines 156–165), else the
statistics of the extracted `roe_calculation.value` entries. -/
def calculateSummaryStatistics (successful : List ROEResult) : SummaryStatistics :=
  if successful.isEmpty then
    { count := 0, average_roe := 0, median_roe := 0, min_roe := 0,
      max_roe := 0, variance := 0 }
  else summaryOfValues (successful.map (fun r => r.roe_value))

/-- Modelled from the spec: the year-selection policy as the claim for
C7 words it — "the most recent complete calendar year (the latest year
for which full start/end coverage dates are present in the resolved
net-income series)".  Kept separate from `determineTargetYear`, which
is translated from the source, so the two can be compared. -/
def specPreferredYear (data : List Observation) : Option Nat :=
  (availableYears data).max?

/-- Claim-side rendering of "numeric identifier in unpadded form (no
leading zeros)" for comparison against the URL construction of the source. -/
def stripLeadingZeros (s : String) : String :=
  ⟨s.toList.dropWhile (fun c => c = '0')⟩

/-- Concrete full-year 2024 net-income observation with the spec
scenario value (income 2,854,000,000). -/
def obsIncome2024 : Observation :=
  { val := 2854000000, start := some "2024-01-01", endD := some "2024-12-31",
    fy := some 2024, fp := some "FY", accn := "0000000000-24-000001", filed := 20250215 }

/-- Concrete 2024 year-end equity observation with the spec scenario
value (equity 32,456,000,000); point-in-time, so no start date. -/
def obsEquity2024 : Observation :=
  { val := 32456000000, start := none, endD := some "2024-12-31",
    fy := some 2024, fp := some "FY", accn := "0000000000-24-000002", filed := 20250215 }

/-- The same equity observation with value 0 (spec scenario
"equity = 0"). -/
def obsEquityZero : Observation :=
  { obsEquity2024 with val := 0 }

/-- A later-filed restatement of the 2024 net-income observation. -/
def obsIncome2024Amended : Observation :=
  { obsIncome2024 with
      val := 2900000000
      accn := "0000000000-25-000099"
      filed := 20250401 }

/-- Full-year 2025 net-income observation (a fiscal year later than the
hardcoded anchor). -/
def obsIncome2025 : Observation :=
  { val := 3100000000, start := some "2025-01-01", endD := some "2025-12-31",
    fy := some 2025, fp := some "FY", accn := "0000000000-25-000001", filed := 20260215 }

/-- Full-year 2023 net-income observation (for a company without 2024
data). -/
def obsIncome2023 : Observation :=
  { val := 2500000000, start := some "2023-01-01", endD := some "2023-12-31",
    fy := some 2023, fp := some "FY", accn := "0000000000-24-000003", filed := 20240215 }

/-- An observation whose fiscal-year field holds the number 0: non-null,
but falsy in JS. -/
def obsFYZero : Observation :=
  { val := 100, start := none, endD := some "2023-06-30", fy := some 0,
    fp := some "FY", accn := "0000000000-23-000001", filed := 20230901 }

/-- A December-31 balance observation whose fiscal-year field holds 0
(a non-null numeric year, falsy in JS) and whose fiscal-period label is
absent; filed later than its companion below. -/
def obsFYZeroDec : Observation :=
  { val := 100, start := none, endD := some "2021-12-31", fy := some 0,
    fp := none, accn := "0000000000-22-000001", filed := 20220301 }

/-- A December-31 balance observation with the (truthy) fiscal year
2020 and an absent fiscal-period label; filed earlier than its
companion above. -/
def obsFY2020Dec : Observation :=
  { val := 200, start := none, endD := some "2020-12-31", fy := some 2020,
    fp := none, accn := "0000000000-21-000001", filed := 20210301 }

/-- Facts document holding the spec-scenario income and equity series
under the primary tags. -/
def exFacts : String → Option (List Observation) := fun tag =>
  if tag = "NetIncomeLoss" then some [obsIncome2024]
  else if tag = "StockholdersEquity" then some [obsEquity2024]
  else none

/-- The same document with the zero-equity observation. -/
def exFactsZeroEquity : String → Option (List Observation) := fun tag =>
  if tag = "NetIncomeLoss" then some [obsIncome2024]
  else if tag = "StockholdersEquity" then some [obsEquityZero]
  else none

/-- Facts document exposing only tag "B" (spec scenario: requested
list `[A,B,C]`, document has only B). -/
def exFactsOnlyB : String → Option (List Observation) := fun tag =>
  if tag = "B" then some [obsIncome2024] else none

/-- Facts document where candidate "A" is present with an *empty* USD
series while candidate "B" has data. -/
def emptySeriesFacts : String → Option (List Observation) := fun tag =>
  if tag = "A" then some []
  else if tag = "B" then some [obsIncome2024]
  else none

/-! Helper lemmas shared by the claim theorems. -/

/-- A stable sort is empty exactly when its input is. -/
theorem insertionSort_eq_nil_iff {α : Type} (r : α → α → Prop) [DecidableRel r]
    (l : List α) : List.insertionSort r l = [] ↔ l = [] := by
  constructor
  · intro h
    have hlen := (List.perm_insertionSort r l).length_eq
    rw [h] at hlen
    exact List.length_eq_zero.mp hlen.symm
  · intro h
    subst h
    rfl

/-- Anything `tierPick` returns is an element of the input array. -/
theorem tierPick_mem (dataArray : List Observation) (fiscalPeriod : String)
    (targetYear : Option Nat) (r : Observation)
    (h : tierPick dataArray fiscalPeriod targetYear = some r) : r ∈ dataArray := by
  unfold tierPick at h
  split at h
  · split at h
    · rename_i r1 tail heq
      obtain rfl := Option.some.inj h
      have hr : r1 ∈ r1 :: tail := List.mem_cons_self _ _
      rw [← heq] at hr
      have hr2 := (List.perm_insertionSort _ _).mem_iff.mp hr
      unfold fullYearEntries at hr2
      exact List.mem_of_mem_filter hr2
    · split at h
      · rename_i r1 tail heq
        obtain rfl := Option.some.inj h
        have hr : r1 ∈ r1 :: tail := List.mem_cons_self _ _
        rw [← heq] at hr
        have hr2 := (List.perm_insertionSort _ _).mem_iff.mp hr
        unfold yearEndEntries at hr2
        exact List.mem_of_mem_filter hr2
      · exact absurd h (by simp)
  · exact absurd h (by simp)

/-- The tier-3 survivor set is a subset of the input array. -/
theorem tier3Survivors_subset (dataArray : List Observation) (fiscalPeriod : String) :
    tier3Survivors dataArray fiscalPeriod ⊆ dataArray := by
  intro x hx
  unfold tier3Survivors at hx
  split at hx
  · unfold decemberEndEntries at hx
    exact List.mem_of_mem_filter hx
  · unfold periodFiltered at hx
    exact List.mem_of_mem_filter hx

/-! Claim theorems. -/

/-- C1 (counterexample): the guard of the tag resolver is presence, not
non-emptiness, of the USD series.  With candidate "A" present but
holding an empty USD series and candidate "B" holding data, the source
returns "A" with the empty series, falsifying the claim that the first
candidate with a *non-empty* series ("B") is returned. -/
theorem tagResolver_empty_series_selected :
    extractFinancialData emptySeriesFacts ["A", "B"] "Net Income" =
      .ok { tag := "us-gaap:A", data := [] } := rfl

/-- C1 (amended): for every facts document, candidate list and label,
the tag resolver returns the first candidate whose USD series is
*present* in the document (even when that series is empty), never
inspecting later candidates (the result is independent of everything
after the first present candidate); it fails with the NotFound error
naming the exhausted candidate list and the label exactly when no
candidate has a USD entry. -/
theorem tagResolver_first_present_tag (facts : String → Option (List Observation))
    (tagSequence : List String) (label : String) :
    ((∀ t ∈ tagSequence, facts t = none) →
      extractFinancialData facts tagSequence label =
        .error (.notFound label tagSequence)) ∧
    (∀ (pre : List String) (tag : String) (post : List String)
        (series : List Observation),
      tagSequence = pre ++ tag :: post →
      (∀ t ∈ pre, facts t = none) →
      facts tag = some series →
      extractFinancialData facts tagSequence label =
        .ok { tag := "us-gaap:" ++ tag, data := series }) := by
  constructor
  · intro hall
    unfold extractFinancialData
    have hfind : tagSequence.find? (fun tag => (facts tag).isSome) = none := by
      rw [List.find?_eq_none]
      intro t ht
      simp [hall t ht]
    rw [hfind]
  · intro pre tag post series hseq hpre hsome
    subst hseq
    unfold extractFinancialData
    have hfind : (pre ++ tag :: post).find? (fun t => (facts t).isSome) = some tag := by
      induction pre with
      | nil =>
        rw [List.nil_append]
        exact List.find?_cons_of_pos _ (by simp [hsome])
      | cons a as ih =>
        rw [List.cons_append, List.find?_cons_of_neg]
        · exact ih (fun t ht => hpre t (List.mem_cons_of_mem _ ht))
        · simp [hpre a (List.mem_cons_self _ _)]
    rw [hfind]
    simp [hsome]

/-- C1 (witness): the scenario of the spec itself — requested list `[A,B,C]`,
document has only B: the resolver returns B, not C, with A skipped. -/
theorem tagResolver_first_present_tag_witness :
    extractFinancialData exFactsOnlyB ["A", "B", "C"] "Net Income" =
      .ok { tag := "us-gaap:B", data := [obsIncome2024] } :=
  (tagResolver_first_present_tag exFactsOnlyB ["A", "B", "C"] "Net Income").2
    ["A"] "B" ["C"] [obsIncome2024] rfl (by decide) rfl

/-- C9: for every attempt ≥ 0, `handleError` waits exactly
`min(2^attempt · 1000 ms, 30000 ms)` (the `ok` payload); for every
attempt < 0 it fails with the invalid-argument error and performs no
wait. -/
theorem handleError_backoff_spec (attempt : Int) :
    (attempt < 0 →
      handleError attempt = .error "Attempt number must be non-negative") ∧
    (0 ≤ attempt →
      handleError attempt = .ok (min (2 ^ attempt.toNat * 1000) 30000)) := by
  constructor
  · intro h
    unfold handleError
    rw [if_pos h]
  · intro h
    unfold handleError
    rw [if_neg (not_lt.mpr h)]

/-- C9 (witness): attempt −1 errors; attempt 2 waits 4000 ms. -/
theorem handleError_backoff_witness :
    handleError (-1) = .error "Attempt number must be non-negative" ∧
    handleError 2 = .ok 4000 :=
  ⟨(handleError_backoff_spec (-1)).1 (by decide),
   ((handleError_backoff_spec 2).2 (by decide)).trans rfl⟩

/-- C10: the period selector either throws or returns an element of the
input array — it never synthesizes, merges or modifies an observation,
so the selected value, dates and filing metadata come verbatim from one
entry of the upstream series. -/
theorem periodSelector_returns_input_member (dataArray : List Observation)
    (fiscalPeriod : String) (targetYear : Option Nat) (r : Observation)
    (h : getMostRecentFiling dataArray fiscalPeriod targetYear = .ok r) :
    r ∈ dataArray := by
  unfold getMostRecentFiling at h
  cases htp : tierPick dataArray fiscalPeriod targetYear with
  | some r0 =>
    rw [htp] at h
    have hr0 : r0 = r := by simpa using h
    subst hr0
    exact tierPick_mem dataArray fiscalPeriod targetYear r0 htp
  | none =>
    rw [htp] at h
    cases hs : List.insertionSort tier3Before (tier3Survivors dataArray fiscalPeriod) with
    | cons r1 tail =>
      rw [hs] at h
      have hr1 : r1 = r := by simpa using h
      subst hr1
      have hr : r1 ∈ r1 :: tail := List.mem_cons_self _ _
      rw [← hs] at hr
      exact tier3Survivors_subset dataArray fiscalPeriod
        ((List.perm_insertionSort _ _).mem_iff.mp hr)
    | nil =>
      rw [hs] at h
      exact absurd h (by simp)

/-- C10 (witness): a concrete selection returns the sole input entry. -/
theorem periodSelector_returns_input_member_witness :
    obsIncome2023 ∈ [obsIncome2023] :=
  periodSelector_returns_input_member [obsIncome2023] "FY" none obsIncome2023 rfl

/-- C2: with fiscal period `FY` and a (truthy) target year, whenever
the input series contains at least one observation whose coverage start
date falls on `targetYear`-01-01 and whose coverage end date falls on
`targetYear`-12-31 (the tier-1 full-year flow subset), the period
selector returns a member of exactly that subset whose "date filed" is
maximal in it — the most recently amended filing wins. -/
theorem periodSelector_fullYear_latest_filed (dataArray : List Observation)
    (y : Nat) (hy : y ≠ 0) (hne : fullYearEntries dataArray y ≠ []) :
    ∃ r, getMostRecentFiling dataArray "FY" (some y) = .ok r ∧
      r ∈ fullYearEntries dataArray y ∧
      ∀ o ∈ fullYearEntries dataArray y, o.filed ≤ r.filed := by
  cases h1 : List.insertionSort filedDescOrder (fullYearEntries dataArray y) with
  | nil => exact absurd ((insertionSort_eq_nil_iff _ _).mp h1) hne
  | cons r rest =>
    have hcond : (("FY" : String) == "FY" && jsTruthyNat (some y)) = true := by
      simp [jsTruthyNat, hy]
    have htp : tierPick dataArray "FY" (some y) = some r := by
      unfold tierPick
      rw [if_pos hcond]
      simp only [Option.getD_some]
      rw [h1]
    refine ⟨r, ?_, ?_, ?_⟩
    · unfold getMostRecentFiling
      rw [htp]
    · have hr : r ∈ r :: rest := List.mem_cons_self _ _
      rw [← h1] at hr
      exact (List.perm_insertionSort _ _).mem_iff.mp hr
    · intro o ho
      have hsorted := List.sorted_insertionSort filedDescOrder (fullYearEntries dataArray y)
      rw [h1] at hsorted
      have ho' : o ∈ List.insertionSort filedDescOrder (fullYearEntries dataArray y) :=
        (List.perm_insertionSort _ _).mem_iff.mpr ho
      rw [h1] at ho'
      rcases List.mem_cons.mp ho' with rfl | hmem
      · exact le_refl _
      · exact List.rel_of_sorted_cons hsorted o hmem

/-- C2 (witness): between the original 2024 full-year filing and its
later-filed restatement, the restatement is selected. -/
theorem periodSelector_fullYear_latest_filed_witness :
    ∃ r, getMostRecentFiling [obsIncome2024, obsIncome2024Amended] "FY" (some 2024) =
        .ok r ∧
      r ∈ fullYearEntries [obsIncome2024, obsIncome2024Amended] 2024 ∧
      ∀ o ∈ fullYearEntries [obsIncome2024, obsIncome2024Amended] 2024,
        o.filed ≤ r.filed :=
  periodSelector_fullYear_latest_filed [obsIncome2024, obsIncome2024Amended] 2024
    (by decide) (by decide)

/-- Ordered insertion only consults the relation on pairs drawn from the
inserted element and the list. -/
theorem orderedInsert_congr {α : Type} (r s : α → α → Prop) [DecidableRel r]
    [DecidableRel s] (a : α) (l : List α)
    (h : ∀ x ∈ a :: l, ∀ y ∈ a :: l, (r x y ↔ s x y)) :
    List.orderedInsert r a l = List.orderedInsert s a l := by
  induction l with
  | nil => rfl
  | cons b t ih =>
    have hsub : ∀ x ∈ a :: t, x ∈ a :: b :: t := by
      intro x hx
      rcases List.mem_cons.mp hx with rfl | hx'
      · exact List.mem_cons_self _ _
      · exact List.mem_cons_of_mem _ (List.mem_cons_of_mem _ hx')
    by_cases hrab : r a b
    · simp only [List.orderedInsert]
      rw [if_pos hrab, if_pos ((h a (by simp) b (by simp)).mp hrab)]
    · simp only [List.orderedInsert]
      rw [if_neg hrab, if_neg (fun hs => hrab ((h a (by simp) b (by simp)).mpr hs))]
      rw [ih (fun x hx y hy => h x (hsub x hx) y (hsub y hy))]

/-- Insertion sort only consults the relation on pairs of list
elements. -/
theorem insertionSort_congr {α : Type} (r s : α → α → Prop) [DecidableRel r]
    [DecidableRel s] (l : List α)
    (h : ∀ x ∈ l, ∀ y ∈ l, (r x y ↔ s x y)) :
    List.insertionSort r l = List.insertionSort s l := by
  induction l with
  | nil => rfl
  | cons a t ih =>
    simp only [List.insertionSort]
    rw [ih (fun x hx y hy => h x (List.mem_cons_of_mem _ hx) y (List.mem_cons_of_mem _ hy))]
    apply orderedInsert_congr
    intro x hx y hy
    apply h
    · rcases List.mem_cons.mp hx with rfl | hx'
      · exact List.mem_cons_self _ _
      · exact List.mem_cons_of_mem _ ((List.perm_insertionSort s t).mem_iff.mp hx')
    · rcases List.mem_cons.mp hy with rfl | hy'
      · exact List.mem_cons_self _ _
      · exact List.mem_cons_of_mem _ ((List.perm_insertionSort s t).mem_iff.mp hy')

/-- On observations whose fiscal years are both truthy, the tier-3
comparator is the descending lexicographic (fiscal year, filed) order. -/
theorem tier3Before_iff_lex (x y : Observation) (hx : jsTruthyNat x.fy = true)
    (hy : jsTruthyNat y.fy = true) : tier3Before x y ↔ lexBefore x y := by
  unfold tier3Before tier3BeforeB lexBefore
  rw [hx, hy]
  simp only [Bool.true_and]
  rcases eq_or_ne (fyv y) (fyv x) with heq | hne
  · rw [if_neg (by simp [heq])]
    simp [heq]
  · rw [if_pos (by simpa using hne)]
    constructor
    · intro hle
      exact Or.inl (lt_of_le_of_ne (by simpa using hle) hne)
    · rintro (hlt | ⟨heq, _⟩)
      · simpa using le_of_lt hlt
      · exact absurd heq hne

/-- C3 (counterexample), two concrete inputs against two clauses of the
claim.  First, the tier-3 primary filter uses JS truthiness, not
non-nullness, of the fiscal-year field: an observation with `fy = 0`
(non-null) and matching fiscal period is discarded and the selector
throws even though the claimed survivor set is non-empty.  Second, the
claimed survivor ordering — fiscal year descending, then date filed
descending — fails on the December-31 fallback branch: between a
survivor with the falsy fiscal year 0 (filed later) and one with the
truthy fiscal year 2020 (filed earlier), the source comparator ignores
the fiscal years (one is falsy) and compares filed dates, so the
selector returns the fiscal-year-0 entry although a survivor with a
strictly greater (non-null, numeric) fiscal year is present. -/
theorem periodSelector_tier3_divergences :
    (getMostRecentFiling [obsFYZero] "FY" none = .error (.periodNotFound "FY") ∧
      obsFYZero.fy ≠ none ∧ obsFYZero.fp = some "FY") ∧
    (getMostRecentFiling [obsFYZeroDec, obsFY2020Dec] "FY" none = .ok obsFYZeroDec ∧
      obsFY2020Dec ∈ tier3Survivors [obsFYZeroDec, obsFY2020Dec] "FY" ∧
      obsFYZeroDec.fy = some 0 ∧ obsFY2020Dec.fy = some 2020 ∧
      fyv obsFYZeroDec < fyv obsFY2020Dec) :=
  ⟨⟨rfl, by decide, rfl⟩, ⟨rfl, by decide, rfl, rfl, by decide⟩⟩

/-- C3 (amended): whenever tier 1 and tier 2 produce no candidate or no
(truthy) target year is given, the period selector falls through
without error to tier 3: it filters to entries with a truthy (non-null,
non-zero) fiscal-year field whose fiscal-period label equals the
requested period, falls back (when that is empty and the period is
`FY`) to entries whose coverage end date falls on any December 31,
sorts survivors with the source comparator — fiscal year descending
when both entries carry truthy fiscal years that differ, date filed
descending otherwise — and returns the first survivor of that stable
sort (the head-of-sort characterization below); whenever the primary
fiscal-year filter is non-empty the returned entry is maximal among
survivors in the descending (fiscal year, date filed) lexicographic
order; it fails with the NotFound error naming the requested fiscal
period exactly when the final survivor set is empty. -/
theorem periodSelector_tier3_fallthrough (dataArray : List Observation)
    (fiscalPeriod : String) (targetYear : Option Nat)
    (hfall : ∀ y, targetYear = some y → fiscalPeriod = "FY" → y ≠ 0 →
      fullYearEntries dataArray y = [] ∧ yearEndEntries dataArray y = []) :
    (getMostRecentFiling dataArray fiscalPeriod targetYear =
        .error (.periodNotFound fiscalPeriod) ↔
      tier3Survivors dataArray fiscalPeriod = []) ∧
    (∀ r, getMostRecentFiling dataArray fiscalPeriod targetYear = .ok r ↔
      (List.insertionSort tier3Before (tier3Survivors dataArray fiscalPeriod)).head? =
        some r) ∧
    (∀ r, getMostRecentFiling dataArray fiscalPeriod targetYear = .ok r →
      r ∈ tier3Survivors dataArray fiscalPeriod) ∧
    (periodFiltered dataArray fiscalPeriod ≠ [] →
      ∀ r, getMostRecentFiling dataArray fiscalPeriod targetYear = .ok r →
        ∀ o ∈ tier3Survivors dataArray fiscalPeriod,
          fyv o < fyv r ∨ (fyv o = fyv r ∧ o.filed ≤ r.filed)) := by
  have htp : tierPick dataArray fiscalPeriod targetYear = none := by
    unfold tierPick
    by_cases hc : (fiscalPeriod == "FY" && jsTruthyNat targetYear) = true
    · rw [if_pos hc]
      obtain ⟨hfp, hty⟩ := (Bool.and_eq_true _ _).mp hc
      have hfp' : fiscalPeriod = "FY" := by simpa using hfp
      cases targetYear with
      | none => simp [jsTruthyNat] at hty
      | some y =>
        have hy : y ≠ 0 := by simpa [jsTruthyNat] using hty
        obtain ⟨he1, he2⟩ := hfall y rfl hfp' hy
        simp [he1, he2]
    · rw [if_neg hc]
  refine ⟨?_, ?_, ?_, ?_⟩
  · unfold getMostRecentFiling
    rw [htp]
    cases hs : List.insertionSort tier3Before (tier3Survivors dataArray fiscalPeriod) with
    | nil =>
      have hsur := (insertionSort_eq_nil_iff _ _).mp hs
      simp [hsur]
    | cons r1 tail =>
      have hne : tier3Survivors dataArray fiscalPeriod ≠ [] := by
        intro hnil
        rw [hnil] at hs
        simp at hs
      simp [hne]
  · intro r
    unfold getMostRecentFiling
    rw [htp]
    cases List.insertionSort tier3Before (tier3Survivors dataArray fiscalPeriod) with
    | nil => simp
    | cons r1 tail => simp
  · intro r h
    unfold getMostRecentFiling at h
    rw [htp] at h
    cases hs : List.insertionSort tier3Before (tier3Survivors dataArray fiscalPeriod) with
    | nil => rw [hs] at h; simp at h
    | cons r1 tail =>
      rw [hs] at h
      have hr1 : r1 = r := by simpa using h
      subst hr1
      have hr : r1 ∈ r1 :: tail := List.mem_cons_self _ _
      rw [← hs] at hr
      exact (List.perm_insertionSort _ _).mem_iff.mp hr
  · intro hpf r h o ho
    have hsurv : tier3Survivors dataArray fiscalPeriod =
        periodFiltered dataArray fiscalPeriod := by
      unfold tier3Survivors
      rw [if_neg]
      intro hc
      obtain ⟨hemp, _⟩ := (Bool.and_eq_true _ _).mp hc
      exact hpf (by simpa using hemp)
    have htruthy : ∀ x ∈ tier3Survivors dataArray fiscalPeriod,
        jsTruthyNat x.fy = true := by
      intro x hx
      rw [hsurv] at hx
      unfold periodFiltered at hx
      have hx2 := (List.mem_filter.mp hx).2
      exact ((Bool.and_eq_true _ _).mp hx2).1
    have hcong : List.insertionSort tier3Before (tier3Survivors dataArray fiscalPeriod) =
        List.insertionSort lexBefore (tier3Survivors dataArray fiscalPeriod) :=
      insertionSort_congr _ _ _
        (fun x hx y hy => tier3Before_iff_lex x y (htruthy x hx) (htruthy y hy))
    unfold getMostRecentFiling at h
    rw [htp, hcong] at h
    cases hs : List.insertionSort lexBefore (tier3Survivors dataArray fiscalPeriod) with
    | nil => rw [hs] at h; simp at h
    | cons r1 tail =>
      rw [hs] at h
      have hr1 : r1 = r := by simpa using h
      subst hr1
      have hsorted := List.sorted_insertionSort lexBefore (tier3Survivors dataArray fiscalPeriod)
      rw [hs] at hsorted
      have ho' : o ∈ r1 :: tail := by
        rw [← hs]
        exact (List.perm_insertionSort _ _).mem_iff.mpr ho
      rcases List.mem_cons.mp ho' with rfl | hmem
      · exact Or.inr ⟨rfl, le_refl _⟩
      · exact List.rel_of_sorted_cons hsorted o hmem

/-- C3 (witness): with no target year, two annual filings fall through
to tier 3 and the later fiscal year wins; an empty survivor set is
exactly the error case. -/
theorem periodSelector_tier3_fallthrough_witness :
    (getMostRecentFiling [obsIncome2023, obsIncome2024] "FY" none =
        .error (.periodNotFound "FY") ↔
      tier3Survivors [obsIncome2023, obsIncome2024] "FY" = []) ∧
    (∀ r, getMostRecentFiling [obsIncome2023, obsIncome2024] "FY" none = .ok r ↔
      (List.insertionSort tier3Before
          (tier3Survivors [obsIncome2023, obsIncome2024] "FY")).head? = some r) ∧
    (∀ r, getMostRecentFiling [obsIncome2023, obsIncome2024] "FY" none = .ok r →
      r ∈ tier3Survivors [obsIncome2023, obsIncome2024] "FY") ∧
    (periodFiltered [obsIncome2023, obsIncome2024] "FY" ≠ [] →
      ∀ r, getMostRecentFiling [obsIncome2023, obsIncome2024] "FY" none = .ok r →
        ∀ o ∈ tier3Survivors [obsIncome2023, obsIncome2024] "FY",
          fyv o < fyv r ∨ (fyv o = fyv r ∧ o.filed ≤ r.filed)) :=
  periodSelector_tier3_fallthrough [obsIncome2023, obsIncome2024] "FY" none
    (fun y hy => by cases hy)

/-- C7 (counterexample): the year-selection anchor is the hardcoded
2024, not the latest year present in the data.  A series holding
full-year observations for both 2024 and 2025 yields target year 2024,
while the claimed policy ("latest year for which full start/end
coverage dates are present") yields 2025 — and the full-year 2025 flow
subset is indeed non-empty. -/
theorem targetYear_hardcoded_anchor :
    determineTargetYear "FY" [obsIncome2024, obsIncome2025] = some 2024 ∧
    specPreferredYear [obsIncome2024, obsIncome2025] = some 2025 ∧
    fullYearEntries [obsIncome2024, obsIncome2025] 2025 ≠ [] :=
  ⟨rfl, rfl, by decide⟩

/-- C7 (amended): for annual periods the calculator prefers the fixed
anchor year 2024; only when no full-calendar-2024 flow observation
exists does it fall back to the maximum year among full-year flow
observations (year parsed from the start date, positive years only);
when there is no full-year observation at all the target stays 2024,
and non-annual periods get no target year. -/
theorem targetYear_selection_policy (fiscalPeriod : String)
    (data : List Observation) :
    (fiscalPeriod ≠ "FY" → determineTargetYear fiscalPeriod data = none) ∧
    (available2024 data = true →
      determineTargetYear "FY" data = some 2024) ∧
    (available2024 data = false → availableYears data = [] →
      determineTargetYear "FY" data = some 2024) ∧
    (available2024 data = false → availableYears data ≠ [] →
      ∃ y, determineTargetYear "FY" data = some y ∧ y ∈ availableYears data ∧
        ∀ z ∈ availableYears data, z ≤ y) := by
  refine ⟨?_, ?_, ?_, ?_⟩
  · intro h
    unfold determineTargetYear
    rw [if_neg (by simpa using h)]
  · intro h
    unfold determineTargetYear
    rw [if_pos (by simp), if_pos h]
  · intro h1 h2
    unfold determineTargetYear
    rw [if_pos (by simp), if_neg (by simp [h1])]
    rw [show (availableYears data).max? = none from List.max?_eq_none_iff.mpr h2]
  · intro h1 h2
    cases hm : (availableYears data).max? with
    | none => exact absurd (List.max?_eq_none_iff.mp hm) h2
    | some m =>
      refine ⟨m, ?_, ?_, ?_⟩
      · unfold determineTargetYear
        rw [if_pos (by simp), if_neg (by simp [h1]), hm]
      · exact List.max?_mem (by intro a b; rw [Nat.max_def]; split <;> simp) hm
      · intro z hz
        exact List.max?_le_iff (by intro a b c; omega) hm |>.mp (le_refl m) z hz

/-- C7 (witness): a series whose only full-year data is 2023 makes the
fallback pick 2023, the maximum (and member) of the available years. -/
theorem targetYear_selection_policy_witness :
    ∃ y, determineTargetYear "FY" [obsIncome2023] = some y ∧
      y ∈ availableYears [obsIncome2023] ∧
      ∀ z ∈ availableYears [obsIncome2023], z ≤ y :=
  (targetYear_selection_policy "FY" [obsIncome2023]).2.2.2 rfl (by decide)

/-- Evaluation of the calculator when both resolutions and both
selections succeed and the selected equity is positive. -/
theorem calculateROE_ok_eq (ticker cik : String)
    (facts : String → Option (List Observation)) (entityName : String)
    (sic : Option Nat) (fiscalPeriod : String)
    (netIncomeData equityData : TagSeries) (recentNetIncome recentEquity : Observation)
    (h1 : extractFinancialData facts netIncomeTagSequence "Net Income" = .ok netIncomeData)
    (h2 : extractFinancialData facts equityTagSequence "Stockholders Equity" = .ok equityData)
    (h3 : getMostRecentFiling netIncomeData.data fiscalPeriod
        (determineTargetYear fiscalPeriod netIncomeData.data) = .ok recentNetIncome)
    (h4 : getMostRecentFiling equityData.data fiscalPeriod
        (determineTargetYear fiscalPeriod netIncomeData.data) = .ok recentEquity)
    (hpos : 0 < recentEquity.val) :
    calculateROE ticker cik facts entityName sic fiscalPeriod = .ok {
      ticker := jsToUpper ticker
      cik := jsPadStart cik 10 '0'
      company_name := entityName
      sic_code := sic.map (fun n => toString n)
      fiscal_year := recentNetIncome.fy
      fiscal_period := fiscalPeriod
      filing_date := recentNetIncome.filed
      accession_number := recentNetIncome.accn
      filing_url := "https://www.sec.gov/Archives/edgar/data/" ++ cik ++ "/"
        ++ stripHyphens recentNetIncome.accn
      net_income_value := recentNetIncome.val
      net_income_tag := netIncomeData.tag
      stockholders_equity_value := recentEquity.val
      stockholders_equity_tag := equityData.tag
      roe_value := (recentNetIncome.val : ℚ) / (recentEquity.val : ℚ)
      roe_percentage :=
        jsToFixed2 ((recentNetIncome.val : ℚ) / (recentEquity.val : ℚ) * 100) ++ "%"
      data_quality_flags := [] } := by
  unfold calculateROE
  simp only [h1, h2, h3, h4]
  rw [if_neg (not_le.mpr hpos)]

/-- Evaluation of the calculator when the selected equity is
non-positive: the InvalidData error, before any division. -/
theorem calculateROE_err_eq (ticker cik : String)
    (facts : String → Option (List Observation)) (entityName : String)
    (sic : Option Nat) (fiscalPeriod : String)
    (netIncomeData equityData : TagSeries) (recentNetIncome recentEquity : Observation)
    (h1 : extractFinancialData facts netIncomeTagSequence "Net Income" = .ok netIncomeData)
    (h2 : extractFinancialData facts equityTagSequence "Stockholders Equity" = .ok equityData)
    (h3 : getMostRecentFiling netIncomeData.data fiscalPeriod
        (determineTargetYear fiscalPeriod netIncomeData.data) = .ok recentNetIncome)
    (h4 : getMostRecentFiling equityData.data fiscalPeriod
        (determineTargetYear fiscalPeriod netIncomeData.data) = .ok recentEquity)
    (hval : recentEquity.val ≤ 0) :
    calculateROE ticker cik facts entityName sic fiscalPeriod =
      .error (.invalidEquity recentEquity.val) := by
  unfold calculateROE
  simp only [h1, h2, h3, h4]
  rw [if_pos hval]

/-- C4: whenever resolution and period selection deliver an income and
an equity observation, the calculator fails with the InvalidData error
(carrying the offending value) for every equity ≤ 0 and every income
value; with positive equity it succeeds, and a negative income is not a
failure — it produces a negative ratio.  No result record is produced
when equity ≤ 0. -/
theorem calculateROE_invalidData_nonpositive_equity (ticker cik : String)
    (facts : String → Option (List Observation)) (entityName : String)
    (sic : Option Nat) (fiscalPeriod : String)
    (netIncomeData equityData : TagSeries) (recentNetIncome recentEquity : Observation)
    (h1 : extractFinancialData facts netIncomeTagSequence "Net Income" = .ok netIncomeData)
    (h2 : extractFinancialData facts equityTagSequence "Stockholders Equity" = .ok equityData)
    (h3 : getMostRecentFiling netIncomeData.data fiscalPeriod
        (determineTargetYear fiscalPeriod netIncomeData.data) = .ok recentNetIncome)
    (h4 : getMostRecentFiling equityData.data fiscalPeriod
        (determineTargetYear fiscalPeriod netIncomeData.data) = .ok recentEquity) :
    (recentEquity.val ≤ 0 →
      calculateROE ticker cik facts entityName sic fiscalPeriod =
        .error (.invalidEquity recentEquity.val)) ∧
    (0 < recentEquity.val →
      ∃ result, calculateROE ticker cik facts entityName sic fiscalPeriod = .ok result ∧
        result.roe_value = (recentNetIncome.val : ℚ) / (recentEquity.val : ℚ) ∧
        (recentNetIncome.val < 0 → result.roe_value < 0)) := by
  constructor
  · intro hval
    exact calculateROE_err_eq ticker cik facts entityName sic fiscalPeriod
      netIncomeData equityData recentNetIncome recentEquity h1 h2 h3 h4 hval
  · intro hpos
    refine ⟨_, calculateROE_ok_eq ticker cik facts entityName sic fiscalPeriod
      netIncomeData equityData recentNetIncome recentEquity h1 h2 h3 h4 hpos, rfl, ?_⟩
    intro hneg
    exact div_neg_of_neg_of_pos (by exact_mod_cast hneg) (by exact_mod_cast hpos)

/-- C4 (witness): the spec scenario "equity = 0" fails with the
InvalidData error carrying the value 0, for the concrete fixture. -/
theorem calculateROE_invalidData_nonpositive_equity_witness :
    calculateROE "DUK" "1326160" exFactsZeroEquity "Duke Energy Corporation" none "FY" =
      .error (.invalidEquity 0) :=
  (calculateROE_invalidData_nonpositive_equity "DUK" "1326160" exFactsZeroEquity
    "Duke Energy Corporation" none "FY"
    { tag := "us-gaap:NetIncomeLoss", data := [obsIncome2024] }
    { tag := "us-gaap:StockholdersEquity", data := [obsEquityZero] }
    obsIncome2024 obsEquityZero rfl rfl rfl rfl).1 (by decide)

/-- Rendering of the spec-scenario percentage: the exact ratio times
100 rounds to 8.79. -/
theorem jsToFixed2_scenario :
    jsToFixed2 (((2854000000 : ℤ) : ℚ) / ((32456000000 : ℤ) : ℚ) * 100) = "8.79" := by
  unfold jsToFixed2
  have hfl : ⌊(((2854000000 : ℤ) : ℚ) / ((32456000000 : ℤ) : ℚ) * 100) * 100 + 1 / 2⌋ =
      (879 : ℤ) := by
    rw [Int.floor_eq_iff]
    constructor <;> norm_num
  rw [hfl]
  rfl

/-- C5 (counterexample): at the spec-scenario inputs the computed ratio
is 2854000000 / 32456000000 = 0.08793…, strictly below 0.08794 — its
decimal expansion does not begin 0.08794 as the claim states. -/
theorem calculateROE_scenario_ratio_digits :
    ((calculateROE "DUK" "1326160" exFacts "Duke Energy Corporation" none "FY").toOption.map
        (fun result => result.roe_value)) =
      some ((obsIncome2024.val : ℚ) / (obsEquity2024.val : ℚ)) ∧
    (obsIncome2024.val : ℚ) / (obsEquity2024.val : ℚ) < 8794 / 100000 ∧
    (8793 / 100000 : ℚ) ≤ (obsIncome2024.val : ℚ) / (obsEquity2024.val : ℚ) := by
  refine ⟨rfl, ?_, ?_⟩
  · show ((2854000000 : ℤ) : ℚ) / ((32456000000 : ℤ) : ℚ) < 8794 / 100000
    norm_num
  · show (8793 / 100000 : ℚ) ≤ ((2854000000 : ℤ) : ℚ) / ((32456000000 : ℤ) : ℚ)
    norm_num

/-- C5 (amended): with positive selected equity the calculator succeeds
with ratio exactly income / equity — no intermediate rounding — and
only the display percentage is rounded, to two decimal places; at the
spec-scenario inputs income = 2,854,000,000 and equity = 32,456,000,000
the ratio is 0.08793… (in [0.08793, 0.08794)) and the formatted
percentage is "8.79%". -/
theorem calculateROE_exact_ratio (ticker cik : String)
    (facts : String → Option (List Observation)) (entityName : String)
    (sic : Option Nat) (fiscalPeriod : String)
    (netIncomeData equityData : TagSeries) (recentNetIncome recentEquity : Observation)
    (h1 : extractFinancialData facts netIncomeTagSequence "Net Income" = .ok netIncomeData)
    (h2 : extractFinancialData facts equityTagSequence "Stockholders Equity" = .ok equityData)
    (h3 : getMostRecentFiling netIncomeData.data fiscalPeriod
        (determineTargetYear fiscalPeriod netIncomeData.data) = .ok recentNetIncome)
    (h4 : getMostRecentFiling equityData.data fiscalPeriod
        (determineTargetYear fiscalPeriod netIncomeData.data) = .ok recentEquity)
    (hpos : 0 < recentEquity.val) :
    ∃ result, calculateROE ticker cik facts entityName sic fiscalPeriod = .ok result ∧
      result.roe_value = (recentNetIncome.val : ℚ) / (recentEquity.val : ℚ) ∧
      result.roe_percentage =
        jsToFixed2 ((recentNetIncome.val : ℚ) / (recentEquity.val : ℚ) * 100) ++ "%" ∧
      (recentNetIncome.val = 2854000000 → recentEquity.val = 32456000000 →
        ((8793 / 100000 : ℚ) ≤ result.roe_value ∧
          result.roe_value < 8794 / 100000 ∧
          result.roe_percentage = "8.79%")) := by
  refine ⟨_, calculateROE_ok_eq ticker cik facts entityName sic fiscalPeriod
    netIncomeData equityData recentNetIncome recentEquity h1 h2 h3 h4 hpos, rfl, rfl, ?_⟩
  intro hi he
  dsimp only
  rw [hi, he]
  refine ⟨by norm_num, by norm_num, ?_⟩
  rw [jsToFixed2_scenario]
  rfl

/-- C5 (witness): the full pipeline on the scenario fixture. -/
theorem calculateROE_exact_ratio_witness :
    ∃ result, calculateROE "DUK" "1326160" exFacts "Duke Energy Corporation" none "FY" =
        .ok result ∧
      result.roe_value = (obsIncome2024.val : ℚ) / (obsEquity2024.val : ℚ) ∧
      result.roe_percentage =
        jsToFixed2 ((obsIncome2024.val : ℚ) / (obsEquity2024.val : ℚ) * 100) ++ "%" ∧
      (obsIncome2024.val = 2854000000 → obsEquity2024.val = 32456000000 →
        ((8793 / 100000 : ℚ) ≤ result.roe_value ∧
          result.roe_value < 8794 / 100000 ∧
          result.roe_percentage = "8.79%")) :=
  calculateROE_exact_ratio "DUK" "1326160" exFacts "Duke Energy Corporation" none "FY"
    { tag := "us-gaap:NetIncomeLoss", data := [obsIncome2024] }
    { tag := "us-gaap:StockholdersEquity", data := [obsEquity2024] }
    obsIncome2024 obsEquity2024 rfl rfl rfl rfl (by decide)

/-- C8 (code bug): at the failing input — the zero-padded identifier
exactly as the batch pipeline supplies it (`UtilityClassifier` pads
by ten-digit zero padding) — the source interpolates the supplied `cik`
verbatim into the filing URL, producing a padded path segment; the
claim (and the sample output in the PRD, whose `filing_url` holds the
unpadded `17797`) requires the unpadded form, which differs. -/
theorem filingUrl_padded_cik_verbatim :
    ((calculateROE "SO" "0000092122" exFacts "The Southern Company" none "FY").toOption.map
        (fun result => result.filing_url)) =
      some "https://www.sec.gov/Archives/edgar/data/0000092122/000000000024000001" ∧
    "https://www.sec.gov/Archives/edgar/data/" ++ stripLeadingZeros "0000092122" ++ "/" ++
        stripHyphens "0000000000-24-000001" =
      "https://www.sec.gov/Archives/edgar/data/92122/000000000024000001" ∧
    ("https://www.sec.gov/Archives/edgar/data/0000092122/000000000024000001" : String) ≠
      "https://www.sec.gov/Archives/edgar/data/92122/000000000024000001" :=
  ⟨rfl, rfl, by decide⟩

/-- A batch appends: processing a batch appends its successes
and failures, in order, to the accumulated results. -/
theorem processBatch_flat (calcOne : UtilityCompany → Except ROEError ROEResult)
    (batch : List UtilityCompany) : ∀ acc : BatchResults,
    processBatch calcOne acc batch =
      { successful := acc.successful ++ batch.filterMap (fun u => (calcOne u).toOption)
        failed := acc.failed ++ batch.filterMap (fun u =>
          match calcOne u with
          | .ok _ => none
          | .error e =>
            some { ticker := u.ticker, cik := u.cik,
                   company_name := u.company_name, error := e }) } := by
  induction batch with
  | nil => intro acc; simp [processBatch]
  | cons u rest ih =>
    intro acc
    rw [show processBatch calcOne acc (u :: rest) = processBatch calcOne
        (match processUtilityROE calcOne u with
          | .ok r => { acc with successful := acc.successful ++ [r] }
          | .error f => { acc with failed := acc.failed ++ [f] }) rest from rfl]
    cases hu : calcOne u with
    | ok r =>
      simp only [processUtilityROE, hu]
      rw [ih]
      simp [List.filterMap_cons, hu, Except.toOption]
    | error e =>
      simp only [processUtilityROE, hu]
      rw [ih]
      simp [List.filterMap_cons, hu, Except.toOption]

/-- Folding the per-batch step over the size-10 partition is the same
as one sequential pass over the whole list: the partition only inserts
pauses, it does not change the per-company sequencing. -/
theorem toBatches_foldl (calcOne : UtilityCompany → Except ROEError ROEResult)
    (l : List UtilityCompany) : ∀ acc : BatchResults,
    (toBatches l).foldl (processBatch calcOne) acc = processBatch calcOne acc l := by
  induction l using toBatches.induct with
  | case1 =>
    intro acc
    rw [show toBatches ([] : List UtilityCompany) = [] from by rw [toBatches]]
    rfl
  | case2 u rest ih =>
    intro acc
    rw [show toBatches (u :: rest) =
        ((u :: rest).take 10) :: toBatches ((u :: rest).drop 10) from by rw [toBatches]]
    rw [List.foldl_cons, ih]
    unfold processBatch
    rw [← List.foldl_append, List.take_append_drop]

/-- Counting successes and failures of one pass. -/
theorem partition_lengths (calcOne : UtilityCompany → Except ROEError ROEResult)
    (l : List UtilityCompany) :
    (l.filterMap (fun u => (calcOne u).toOption)).length +
        l.countP (fun u => (calcOne u).toOption.isNone) = l.length ∧
    (l.filterMap (fun u =>
        match calcOne u with
        | .ok _ => none
        | .error e =>
          some ({ ticker := u.ticker, cik := u.cik,
                  company_name := u.company_name, error := e } : FailureRecord))).length =
      l.countP (fun u => (calcOne u).toOption.isNone) := by
  induction l with
  | nil => simp
  | cons u rest ih =>
    have ih1 := ih.1
    have ih2 := ih.2
    simp only [Except.toOption] at ih1 ih2
    cases hu : calcOne u with
    | ok r =>
      constructor
      · simp [List.filterMap_cons, List.countP_cons, hu, Except.toOption]
        omega
      · simp [List.filterMap_cons, List.countP_cons, hu, Except.toOption]
        omega
    | error e =>
      constructor
      · simp [List.filterMap_cons, List.countP_cons, hu, Except.toOption]
        omega
      · simp [List.filterMap_cons, List.countP_cons, hu, Except.toOption]
        omega

/-- C6: for every per-company calculation outcome and input list, the
batch outcome partitions the input — exactly the companies whose
calculation succeeds appear as success records (in order) and exactly
the K failing companies appear as failure records, N − K + K = N, so no
per-company error aborts the batch; the aggregate statistics are
computed from the successful ratios only, and an empty success set
yields the all-zero statistics record rather than a failure. -/
theorem batchOrchestrator_partition_and_stats
    (calcOne : UtilityCompany → Except ROEError ROEResult)
    (utilities : List UtilityCompany) :
    (processBatchROE calcOne utilities).successful =
        utilities.filterMap (fun u => (calcOne u).toOption) ∧
    (processBatchROE calcOne utilities).failed =
        utilities.filterMap (fun u =>
          match calcOne u with
          | .ok _ => none
          | .error e =>
            some { ticker := u.ticker, cik := u.cik,
                   company_name := u.company_name, error := e }) ∧
    (processBatchROE calcOne utilities).successful.length =
        utilities.length - utilities.countP (fun u => (calcOne u).toOption.isNone) ∧
    (processBatchROE calcOne utilities).failed.length =
        utilities.countP (fun u => (calcOne u).toOption.isNone) ∧
    (processBatchROE calcOne utilities).successful.length +
        (processBatchROE calcOne utilities).failed.length = utilities.length ∧
    calculateSummaryStatistics (processBatchROE calcOne utilities).successful =
      (if (processBatchROE calcOne utilities).successful.isEmpty then
        { count := 0, average_roe := 0, median_roe := 0, min_roe := 0,
          max_roe := 0, variance := 0 }
      else
        summaryOfValues
          ((processBatchROE calcOne utilities).successful.map (fun r => r.roe_value))) ∧
    calculateSummaryStatistics [] =
      { count := 0, average_roe := 0, median_roe := 0, min_roe := 0,
        max_roe := 0, variance := 0 } := by
  have hmain : processBatchROE calcOne utilities =
      { successful := utilities.filterMap (fun u => (calcOne u).toOption)
        failed := utilities.filterMap (fun u =>
          match calcOne u with
          | .ok _ => none
          | .error e =>
            some { ticker := u.ticker, cik := u.cik,
                   company_name := u.company_name, error := e }) } := by
    unfold processBatchROE
    rw [toBatches_foldl]
    rw [processBatch_flat calcOne utilities]
    simp
  have hlen := partition_lengths calcOne utilities
  refine ⟨by rw [hmain], by rw [hmain], ?_, ?_, ?_, rfl, rfl⟩
  · rw [hmain]
    dsimp only
    have := hlen.1
    omega
  · rw [hmain]
    dsimp only
    exact hlen.2
  · rw [hmain]
    dsimp only
    have h1 := hlen.1
    have h2 := hlen.2
    omega
